import Mathlib

/-!
# Verification of the smart-search component's search/filter/selection core

A shallow embedding, in Lean 4, of the search engine of the
`smart-search-component` repository:

* `matchesSearch` — the tiered field matcher from `src/utils/component-utils`
  (shipped inside `constants.ts` in this snapshot);
* the search-cache operations, `performSearch`, `navigateResults`,
  `setActiveTab` / `setTab` from `src/search/smart-search.ts`.

Strings are embedded as Lean `String` and character lists; the ASCII
fragment of JavaScript `toLowerCase`, `trim`, `split(/\s+/)` and the two
identifier regexes is modelled directly on `List Char`.  DOM-only behaviour
(rendering markup, focus, ARIA attributes, screen-reader announcements) is
out of the embedded state; the `resultsContainer` element is assumed to be
present, as it always is once the component has rendered.  Emitted custom
events are recorded in an explicit event list.
-/

namespace SmartSearch

/-! ## Character-list string primitives (ASCII fragment of the JS built-ins) -/

/-- Test that `q` is a prefix of `v` (JS `String.prototype.startsWith`). -/
def isPrefixL : List Char → List Char → Bool
  | [], _ => true
  | _ :: _, [] => false
  | c :: q, d :: v => c == d && isPrefixL q v

/-- Test that `q` is a suffix of `v` (JS `String.prototype.endsWith`). -/
def isSuffixL (q v : List Char) : Bool :=
  isPrefixL q.reverse v.reverse

/-- Test that `q` occurs as a contiguous substring of `v` (JS `String.prototype.includes`). -/
def containsL (q : List Char) : List Char → Bool
  | [] => isPrefixL q []
  | d :: v => isPrefixL q (d :: v) || containsL q v

/-- Accumulator-based splitter behind `splitWsL`; `acc` holds the current
token reversed. -/
def splitWsAux : List Char → List Char → List (List Char)
  | [], acc => if acc.isEmpty then [] else [acc.reverse]
  | c :: l, acc =>
    if c.isWhitespace then
      if acc.isEmpty then splitWsAux l [] else acc.reverse :: splitWsAux l []
    else splitWsAux l (c :: acc)

/-- Word splitting `value.split(/\s+/)`, dropping empty tokens.  (JS keeps an empty first or
last token when the value begins or ends with whitespace; such tokens can
never satisfy `startsWith` for the non-empty normalized query, so dropping
them is observationally equal at every use site.) -/
def splitWsL (l : List Char) : List (List Char) :=
  splitWsAux l []

/-- The test `/^\d+$/.test q`: `q` is non-empty and all digits. -/
def isAllDigits (q : List Char) : Bool :=
  !q.isEmpty && q.all Char.isDigit

/-- After a candidate occurrence of `q` at the head of `rest`, the regex group
`(?:[^\d]|$)` accepts: either the string ends there or a non-digit follows. -/
def boundaryAfter (q rest : List Char) : Bool :=
  match rest.drop q.length with
  | [] => true
  | d :: _ => !d.isDigit

/-- The regex test `new RegExp(‹[^\d]› + q + ‹(?:[^\d]|$)›).test v`: somewhere
in `v`, a non-digit character is immediately followed by `q`, and `q` is
followed by a non-digit or the end of the string. -/
def boundaryTest (q : List Char) : List Char → Bool
  | [] => false
  | c :: rest => (!c.isDigit && isPrefixL q rest && boundaryAfter q rest) || boundaryTest q rest

/-- JS `toLowerCase` (ASCII fragment), as a character list map. -/
def lowerL (l : List Char) : List Char := l.map Char.toLower

/-- JS `trim`, as a character-list operation. -/
def trimL (l : List Char) : List Char :=
  ((l.dropWhile Char.isWhitespace).reverse.dropWhile Char.isWhitespace).reverse

/-- The character list of a string (JS strings are processed per character). -/
def strChars (s : String) : List Char := s.data

/-- Model of `ValidationUtils.normalizeSearchQuery` (also inlined at the top of
`matchesSearch`): `query.toLowerCase().trim()`. -/
def normalizeSearchQuery (s : String) : String :=
  ⟨trimL (lowerL (strChars s))⟩

/-- Model of `ValidationUtils.isNonEmptyString`: `value.trim().length > 0`. -/
def isNonEmptyString (s : String) : Bool :=
  decide (0 < (trimL (strChars s)).length)

/-! ## The Matcher (`matchesSearch` in `src/utils/component-utils`) -/

/-- The field name suggests an identifier: its lowercase form contains
`id` or `number`. -/
def hasIdLikeName (fieldName : String) : Bool :=
  containsL (strChars "id") (lowerL (strChars fieldName)) ||
    containsL (strChars "number") (lowerL (strChars fieldName))

/-- The body of the `fields.some` callback of `matchesSearch`, for one field
with (non-null) stringified value `value` and normalized query `nq`:
exact equality, then prefix, then word-boundary prefix, then the strict
numeric-identifier rule, then the length-gated substring fallback. -/
def fieldMatches (fieldName value : String) (nq : String) : Bool :=
  if lowerL (strChars value) == strChars nq then true
  else if isPrefixL (strChars nq) (lowerL (strChars value)) then true
  else if (splitWsL (lowerL (strChars value))).any
      (fun w => isPrefixL (strChars nq) w) then true
  else if isAllDigits (strChars nq) && hasIdLikeName fieldName then
    -- strict rule for numeric queries against identifier fields;
    -- falls through to `return false`, never to the substring fallback
    isSuffixL (strChars nq) (lowerL (strChars value))
      || boundaryTest (strChars nq) (lowerL (strChars value))
  else if decide (3 ≤ (strChars nq).length) then
    containsL (strChars nq) (lowerL (strChars value))
  else false

/-- Model of `matchesSearch(item, query, fields)`: the record is embedded as a partial
map from field name to stringified value (`none` models a `null`/`undefined`
field, which never matches). -/
def matchesSearch (item : String → Option String) (query : String)
    (fields : List String) : Bool :=
  if (strChars (normalizeSearchQuery query)).isEmpty then false
  else fields.any (fun f =>
    match item f with
    | none => false
    | some v => fieldMatches f v (normalizeSearchQuery query))

/-- A record holding a single field, for field-level statements. -/
def mkItem (field value : String) : String → Option String :=
  fun g => if g = field then some value else none

/-! ## Data model (`smart-search.ts` interfaces and constants) -/

/-- The type `SearchTab`: the four filter tabs. -/
inductive SearchTab
  | all
  | account
  | customer
  | transaction
deriving DecidableEq

/-- The string used for a tab inside composite cache keys and events. -/
def SearchTab.toKeyString : SearchTab → String
  | .all => "all"
  | .account => "account"
  | .customer => "customer"
  | .transaction => "transaction"

/-- The type `SearchResultType`: the category of one result. -/
inductive SearchResultType
  | account
  | customer
  | transaction
deriving DecidableEq

/-- Icon table `RESULT_ICONS` for result categories. -/
def RESULT_ICONS : SearchResultType → String
  | .account => "fas fa-university"
  | .customer => "fas fa-user"
  | .transaction => "fas fa-exchange-alt"

/-- Records of type `AccountData`.  JS numbers that the component only stringifies or formats
are embedded as `Int`. -/
structure AccountData where
  id : String
  title : String
  accountNumber : String
  balance : Int
  type : String
  status : String
deriving DecidableEq

/-- Records of type `CustomerData`. -/
structure CustomerData where
  id : String
  firstName : String
  lastName : String
  email : String
  customerId : String
  accountType : String
  totalAccounts : Nat
deriving DecidableEq

/-- Records of type `TransactionData`. -/
structure TransactionData where
  id : String
  transactionId : String
  merchant : String
  amount : Int
  category : String
  type : String
  date : String
  description : String
deriving DecidableEq

/-- Property access `item[field]` with `String(value)` coercion, for accounts. -/
def AccountData.getField (a : AccountData) : String → Option String
  | "id" => some a.id
  | "title" => some a.title
  | "accountNumber" => some a.accountNumber
  | "balance" => some (toString a.balance)
  | "type" => some a.type
  | "status" => some a.status
  | _ => none

/-- Property access `item[field]` with `String(value)` coercion, for customers. -/
def CustomerData.getField (c : CustomerData) : String → Option String
  | "id" => some c.id
  | "firstName" => some c.firstName
  | "lastName" => some c.lastName
  | "email" => some c.email
  | "customerId" => some c.customerId
  | "accountType" => some c.accountType
  | "totalAccounts" => some (toString c.totalAccounts)
  | _ => none

/-- Property access `item[field]` with `String(value)` coercion, for transactions. -/
def TransactionData.getField (t : TransactionData) : String → Option String
  | "id" => some t.id
  | "transactionId" => some t.transactionId
  | "merchant" => some t.merchant
  | "amount" => some (toString t.amount)
  | "category" => some t.category
  | "type" => some t.type
  | "date" => some t.date
  | "description" => some t.description
  | _ => none

/-- Model of `formatCurrency`: the `Intl.NumberFormat` locale rendering is an external
library call; it is abstracted as a plain dollar rendering.  No claim inspects
the produced text. -/
def formatCurrency (amount : Int) : String :=
  "$" ++ toString amount

/-- Model of `formatDate`: the `Intl.DateTimeFormat` rendering is an external library
call (and on failure the raw string comes back unmodified); it is abstracted
as the raw string.  No claim inspects the produced text. -/
def formatDate (dateString : String) : String :=
  dateString

/-- Payload `rawData`: the source record a result points back to. -/
inductive RawData
  | account (a : AccountData)
  | customer (c : CustomerData)
  | transaction (t : TransactionData)
deriving DecidableEq

/-- Results of type `SearchResult`. -/
structure SearchResult where
  id : String
  type : SearchResultType
  title : String
  subtitle : String
  metadata : String
  icon : String
  rawData : RawData
deriving DecidableEq

/-- The type `SearchData`: the three in-memory collections. -/
structure SearchData where
  accounts : List AccountData
  customers : List CustomerData
  transactions : List TransactionData
deriving DecidableEq

/-- Searchable fields for accounts. -/
def accountSearchFields : List String := ["accountNumber", "title", "type"]

/-- Searchable fields for customers. -/
def customerSearchFields : List String := ["firstName", "lastName", "email", "customerId"]

/-- Searchable fields for transactions. -/
def transactionSearchFields : List String := ["transactionId", "merchant", "category", "description"]

/-- Model of `searchAccounts` = `searchByType` over accounts: filter by `matchesSearch`,
then format. -/
def searchAccounts (data : List AccountData) (query : String) : List SearchResult :=
  (data.filter (fun a => matchesSearch a.getField query accountSearchFields)).map
    (fun a =>
      { id := a.id, type := .account, title := a.title,
        subtitle := a.accountNumber ++ " • " ++ formatCurrency a.balance,
        metadata := a.type ++ " • " ++ a.status,
        icon := RESULT_ICONS .account, rawData := .account a })

/-- Model of `searchCustomers`. -/
def searchCustomers (data : List CustomerData) (query : String) : List SearchResult :=
  (data.filter (fun c => matchesSearch c.getField query customerSearchFields)).map
    (fun c =>
      { id := c.id, type := .customer, title := c.firstName ++ " " ++ c.lastName,
        subtitle := c.email,
        metadata := c.accountType ++ " • " ++ toString c.totalAccounts ++ " accounts",
        icon := RESULT_ICONS .customer, rawData := .customer c })

/-- Model of `searchTransactions`. -/
def searchTransactions (data : List TransactionData) (query : String) : List SearchResult :=
  (data.filter (fun t => matchesSearch t.getField query transactionSearchFields)).map
    (fun t =>
      { id := t.id, type := .transaction, title := t.merchant,
        subtitle := formatCurrency t.amount ++ " • " ++ t.category,
        metadata := t.type ++ " • " ++ formatDate t.date,
        icon := RESULT_ICONS .transaction, rawData := .transaction t })

/-! ## Search cache (`searchCache : Map<string, CachedSearchResult>`)

A JS `Map` is embedded as an insertion-ordered association list with unique
keys: the head is the oldest-inserted entry (`map.keys().next().value`),
`set` of a present key updates in place, `set` of a fresh key appends. -/

/-- Constant `SHARED_CONSTANTS.PERFORMANCE.SEARCH_CACHE_SIZE`. -/
def SEARCH_CACHE_SIZE : Nat := 50

/-- Constant `SHARED_CONSTANTS.PERFORMANCE.CACHE_EXPIRY_MS` (5 minutes). -/
def CACHE_EXPIRY_MS : Nat := 300000

/-- Entries of type `CachedSearchResult`. -/
structure CachedSearchResult where
  query : String
  tab : SearchTab
  results : List SearchResult
  timestamp : Nat
deriving DecidableEq

/-- The component's search cache. -/
abbrev Cache := List (String × CachedSearchResult)

/-- The composite cache key: normalized query + `_` + tab. -/
def cacheKey (query : String) (tab : SearchTab) : String :=
  normalizeSearchQuery query ++ "_" ++ tab.toKeyString

/-- JS `Map.get`. -/
def cacheLookup (cache : Cache) (k : String) : Option CachedSearchResult :=
  (cache.find? (fun p => p.1 == k)).map (fun p => p.2)

/-- JS `Map.delete` (of the unique entry holding key `k`). -/
def cacheErase (cache : Cache) (k : String) : Cache :=
  cache.filter (fun p => p.1 != k)

/-- JS `Map.set`: update in place when the key is present, append otherwise. -/
def mapSet (cache : Cache) (k : String) (v : CachedSearchResult) : Cache :=
  if cache.any (fun p => p.1 == k) then
    cache.map (fun p => if p.1 == k then (k, v) else p)
  else cache ++ [(k, v)]

/-- Model of `getCachedResults`: look the key up; a present entry older than the TTL is
deleted and treated as absent.  Returns the hit (if any) and the possibly
pruned cache. -/
def getCachedResults (cache : Cache) (query : String) (tab : SearchTab) (now : Nat) :
    Option (List SearchResult) × Cache :=
  let key := cacheKey query tab
  match cacheLookup cache key with
  | none => (none, cache)
  | some cached =>
    if CACHE_EXPIRY_MS < now - cached.timestamp then (none, cacheErase cache key)
    else (some cached.results, cache)

/-- Model of `setCachedResults`: when the cache has reached `SEARCH_CACHE_SIZE`, the
first (oldest-inserted) entry is deleted, then the new entry is stored under
the composite key.  (The `if (firstKey)` guard in the source only skips the
delete for an empty map, which cannot hold 50 entries, and `drop 1` of the
empty list is the empty list, so dropping the head is exact.) -/
def setCachedResults (cache : Cache) (query : String) (tab : SearchTab)
    (results : List SearchResult) (now : Nat) : Cache :=
  let key := cacheKey query tab
  let evicted := if SEARCH_CACHE_SIZE ≤ cache.length then cache.drop 1 else cache
  mapSet evicted key ⟨normalizeSearchQuery query, tab, results, now⟩

/-- Model of `clearExpiredCache`: drop every entry older than the TTL. -/
def clearExpiredCache (cache : Cache) (now : Nat) : Cache :=
  cache.filter (fun p => !(decide (CACHE_EXPIRY_MS < now - p.2.timestamp)))

/-! ## Component state and the search operations -/

/-- Configuration of type `ComponentConfig`. -/
structure ComponentConfig where
  placeholder : String
  minSearchLength : Nat
  debounceDelay : Nat
  maxResults : Nat
  enableFilters : Bool
  highlightMatches : Bool
  dataEndpoint : String
deriving DecidableEq

/-- The custom events the embedded operations dispatch. -/
inductive Event
  | searchPerformed (query : String) (resultCount : Nat) (activeTab : SearchTab)
  | tabChanged (activeTab : SearchTab)
  | dropdownOpened
  | dropdownClosed
deriving DecidableEq

/-- Instrumentation of one operation: how many records the Matcher
(`matchesSearch`) was invoked on, whether the cache was consulted / hit /
written, whether `logError` ran in a catch block, and the dispatched events. -/
structure SearchMeta where
  matcherCalls : Nat
  cacheChecked : Bool
  cacheHit : Bool
  cacheWrote : Bool
  errorLogged : Bool
  events : List Event
deriving DecidableEq

/-- The meta record of an operation that did none of the above. -/
def SearchMeta.empty : SearchMeta :=
  ⟨0, false, false, false, false, []⟩

/-- The component state the claims are about.  `inputValue` is the value of
the search input element; purely visual state (markup, theme, scroll) is
outside the embedding. -/
structure SearchState where
  config : ComponentConfig
  searchData : SearchData
  inputValue : String
  filteredResults : List SearchResult
  selectedIndex : Int
  selectedResult : Option SearchResult
  activeTab : SearchTab
  isOpen : Bool
  searchCache : Cache
deriving DecidableEq

/-- Model of `renderResults`: with an empty result list it renders the no-results
message and returns early; otherwise it rebuilds the list markup and ends
with `this.selectedIndex = -1`.  (The `resultsContainer` element is assumed
present.) -/
def renderResults (st : SearchState) : SearchState :=
  if st.filteredResults.isEmpty then st
  else { st with selectedIndex := -1 }

/-- Model of `openDropdown`: no-op when already open. -/
def openDropdown (st : SearchState) : SearchState × List Event :=
  if st.isOpen then (st, [])
  else ({ st with isOpen := true }, [Event.dropdownOpened])

/-- Model of `closeDropdown`: no-op when already closed; otherwise closes and runs
`setSelectedIndex(-1)`. -/
def closeDropdown (st : SearchState) : SearchState × List Event :=
  if st.isOpen then ({ st with isOpen := false, selectedIndex := -1 }, [Event.dropdownClosed])
  else (st, [])

/-- The category scan of `performSearch`: `searchAccounts`, `searchCustomers`
and `searchTransactions` concatenated for the `all` tab, a single category
otherwise. -/
def computeResults (st : SearchState) (query : String) : List SearchResult :=
  match st.activeTab with
  | .all =>
      searchAccounts st.searchData.accounts query
        ++ searchCustomers st.searchData.customers query
        ++ searchTransactions st.searchData.transactions query
  | .account => searchAccounts st.searchData.accounts query
  | .customer => searchCustomers st.searchData.customers query
  | .transaction => searchTransactions st.searchData.transactions query

/-- How many records the scan hands to `matchesSearch`. -/
def scannedRecordCount (st : SearchState) : Nat :=
  match st.activeTab with
  | .all =>
      st.searchData.accounts.length + st.searchData.customers.length
        + st.searchData.transactions.length
  | .account => st.searchData.accounts.length
  | .customer => st.searchData.customers.length
  | .transaction => st.searchData.transactions.length

/-- A JS exception inside the `try` block of `performSearch`, by stage:
either while matching/formatting (before any state mutation of the block)
or after the cache write (while rendering/opening). -/
inductive Fault
  | duringCompute
  | afterCacheWrite
deriving DecidableEq

/-- Model of `performSearch(query)`, parametrized by the wall clock (`Date.now()`) and
a `Fault` oracle naming the stage at which the `try` block raises (none for
the normal run).  Control flow follows the source: the short-query guard on
the *raw* query length, then the cache probe, then the fresh scan with
result cap, cache store and render; the catch block empties the results,
re-renders and closes the dropdown; the `search-performed` event is
dispatched on every path. -/
def performSearchAux (st : SearchState) (query : String) (now : Nat)
    (fault : Option Fault) : SearchState × SearchMeta :=
  if query.length < st.config.minSearchLength then
    let st1 := renderResults { st with filteredResults := [] }
    let (st2, ev) := closeDropdown st1
    (st2, { matcherCalls := 0, cacheChecked := false, cacheHit := false,
            cacheWrote := false, errorLogged := false,
            events := ev ++ [Event.searchPerformed query 0 st.activeTab] })
  else
    let probe := getCachedResults st.searchCache query st.activeTab now
    match probe.1 with
    | some results =>
      let st1 := renderResults { st with searchCache := probe.2, filteredResults := results }
      let (st2, ev) := openDropdown st1
      (st2, { matcherCalls := 0, cacheChecked := true, cacheHit := true,
              cacheWrote := false, errorLogged := false,
              events := ev ++ [Event.searchPerformed query results.length st.activeTab] })
    | none =>
      let st1 := { st with searchCache := clearExpiredCache probe.2 now }
      match fault with
      | some .duringCompute =>
        let stc := renderResults { st1 with filteredResults := [] }
        let (st2, ev) := closeDropdown stc
        (st2, { matcherCalls := 0, cacheChecked := true, cacheHit := false,
                cacheWrote := false, errorLogged := true,
                events := ev ++ [Event.searchPerformed query 0 st.activeTab] })
      | some .afterCacheWrite =>
        let results := (computeResults st1 query).take st.config.maxResults
        let cache2 := setCachedResults st1.searchCache query st.activeTab results now
        let stc := renderResults { st1 with searchCache := cache2, filteredResults := [] }
        let (st2, ev) := closeDropdown stc
        (st2, { matcherCalls := scannedRecordCount st1, cacheChecked := true,
                cacheHit := false, cacheWrote := true, errorLogged := true,
                events := ev ++ [Event.searchPerformed query 0 st.activeTab] })
      | none =>
        let results := (computeResults st1 query).take st.config.maxResults
        let cache2 := setCachedResults st1.searchCache query st.activeTab results now
        let st2 := renderResults { st1 with searchCache := cache2, filteredResults := results }
        let (st3, ev) := openDropdown st2
        (st3, { matcherCalls := scannedRecordCount st1, cacheChecked := true,
                cacheHit := false, cacheWrote := true, errorLogged := false,
                events := ev ++ [Event.searchPerformed query results.length st.activeTab] })

/-- Model of `performSearch` without injected faults: the normal run. -/
def performSearch (st : SearchState) (query : String) (now : Nat) :
    SearchState × SearchMeta :=
  performSearchAux st query now none

/-- Model of `navigateResults(direction)`: `newIndex = selectedIndex + direction`;
out of `[-1, length)` is a plain `return`, otherwise `setSelectedIndex`. -/
def navigateResults (st : SearchState) (direction : Int) : SearchState :=
  let newIndex := st.selectedIndex + direction
  if newIndex < -1 ∨ (st.filteredResults.length : Int) ≤ newIndex then st
  else { st with selectedIndex := newIndex }

/-- Model of `setActiveTab(tab)`: a strict no-op when the tab is unchanged; otherwise
switch the tab, clear the whole cache, re-run the search when the input is
non-empty (with the normalized input), and dispatch `tab-changed` last. -/
def setActiveTab (st : SearchState) (tab : SearchTab) (now : Nat) :
    SearchState × SearchMeta :=
  if st.activeTab = tab then (st, SearchMeta.empty)
  else
    let st1 := { st with activeTab := tab, searchCache := [] }
    let run :=
      if isNonEmptyString st1.inputValue then
        performSearch st1 (normalizeSearchQuery st1.inputValue) now
      else (st1, SearchMeta.empty)
    (run.1, { run.2 with events := run.2.events ++ [Event.tabChanged tab] })

/-- Public `setTab`: delegates to `setActiveTab`. -/
def setTab (st : SearchState) (tab : SearchTab) (now : Nat) :
    SearchState × SearchMeta :=
  setActiveTab st tab now

/-- Public `search(query)`: writes the input element value, then performs the
search synchronously. -/
def search (st : SearchState) (query : String) (now : Nat) :
    SearchState × SearchMeta :=
  performSearch { st with inputValue := query } query now

/-! ## Concrete fixtures used by counterexamples and witnesses -/

/-- The shipped `DEFAULT_CONFIG` (`validateConfig({})`). -/
def defaultConfig : ComponentConfig :=
  { placeholder := "Search accounts, customers, and transactions...",
    minSearchLength := 2, debounceDelay := 300, maxResults := 10,
    enableFilters := true, highlightMatches := true, dataEndpoint := "./data" }

/-- A one-account data set. -/
def sampleAccount : AccountData :=
  { id := "acc-1", title := "apple savings", accountNumber := "1001",
    balance := 500, type := "Savings", status := "Active" }

/-- The result the engine builds from `sampleAccount`. -/
def sampleResult : SearchResult :=
  { id := "acc-1", type := .account, title := "apple savings",
    subtitle := "1001 • $500", metadata := "Savings • Active",
    icon := RESULT_ICONS .account, rawData := .account sampleAccount }

/-- An idle component over the one-account data set. -/
def baseState : SearchState :=
  { config := defaultConfig, searchData := ⟨[sampleAccount], [], []⟩,
    inputValue := "", filteredResults := [], selectedIndex := -1,
    selectedResult := none, activeTab := .all, isOpen := false, searchCache := [] }

/-- The component open over one result with the first result selected. -/
def openSelState : SearchState :=
  { baseState with filteredResults := [sampleResult], selectedIndex := 0, isOpen := true }

/-! ## Projection lemmas for the three rendering helpers -/

@[simp] theorem renderResults_filteredResults (st : SearchState) :
    (renderResults st).filteredResults = st.filteredResults := by
  unfold renderResults; split <;> rfl

@[simp] theorem renderResults_searchCache (st : SearchState) :
    (renderResults st).searchCache = st.searchCache := by
  unfold renderResults; split <;> rfl

@[simp] theorem renderResults_config (st : SearchState) :
    (renderResults st).config = st.config := by
  unfold renderResults; split <;> rfl

@[simp] theorem renderResults_activeTab (st : SearchState) :
    (renderResults st).activeTab = st.activeTab := by
  unfold renderResults; split <;> rfl

@[simp] theorem renderResults_isOpen (st : SearchState) :
    (renderResults st).isOpen = st.isOpen := by
  unfold renderResults; split <;> rfl

@[simp] theorem openDropdown_filteredResults (st : SearchState) :
    (openDropdown st).1.filteredResults = st.filteredResults := by
  unfold openDropdown; split <;> rfl

@[simp] theorem openDropdown_searchCache (st : SearchState) :
    (openDropdown st).1.searchCache = st.searchCache := by
  unfold openDropdown; split <;> rfl

@[simp] theorem openDropdown_config (st : SearchState) :
    (openDropdown st).1.config = st.config := by
  unfold openDropdown; split <;> rfl

@[simp] theorem openDropdown_activeTab (st : SearchState) :
    (openDropdown st).1.activeTab = st.activeTab := by
  unfold openDropdown; split <;> rfl

@[simp] theorem openDropdown_selectedIndex (st : SearchState) :
    (openDropdown st).1.selectedIndex = st.selectedIndex := by
  unfold openDropdown; split <;> rfl

@[simp] theorem closeDropdown_filteredResults (st : SearchState) :
    (closeDropdown st).1.filteredResults = st.filteredResults := by
  unfold closeDropdown; split <;> rfl

@[simp] theorem closeDropdown_searchCache (st : SearchState) :
    (closeDropdown st).1.searchCache = st.searchCache := by
  unfold closeDropdown; split <;> rfl

@[simp] theorem closeDropdown_config (st : SearchState) :
    (closeDropdown st).1.config = st.config := by
  unfold closeDropdown; split <;> rfl

@[simp] theorem closeDropdown_activeTab (st : SearchState) :
    (closeDropdown st).1.activeTab = st.activeTab := by
  unfold closeDropdown; split <;> rfl

@[simp] theorem closeDropdown_isOpen (st : SearchState) :
    (closeDropdown st).1.isOpen = false := by
  unfold closeDropdown
  split
  · rfl
  · next h => simpa using h

/-! ## Cache lemmas -/

theorem find_append_self (c : Cache) (k : String) (v : CachedSearchResult)
    (h : c.any (fun p => p.1 == k) = false) :
    (c ++ [(k, v)]).find? (fun p => p.1 == k) = some (k, v) := by
  induction c with
  | nil => simp [List.find?]
  | cons hd tl ih =>
    simp only [List.any_cons, Bool.or_eq_false_iff] at h
    simp only [List.cons_append, List.find?, h.1]
    exact ih h.2

theorem find_map_update (c : Cache) (k : String) (v : CachedSearchResult)
    (h : c.any (fun p => p.1 == k) = true) :
    (c.map (fun p => if p.1 == k then (k, v) else p)).find? (fun p => p.1 == k)
      = some (k, v) := by
  induction c with
  | nil => simp at h
  | cons hd tl ih =>
    by_cases hk : (hd.1 == k) = true
    · rw [List.map_cons, if_pos hk, List.find?_cons_of_pos _ (by simp)]
    · simp only [List.any_cons, Bool.or_eq_true] at h
      rw [List.map_cons, if_neg hk]
      exact (@List.find?_cons_of_neg _ (fun p => p.1 == k) hd
        (tl.map (fun p => if p.1 == k then (k, v) else p)) hk).trans
        (ih (h.resolve_left hk))

theorem mapSet_lookup_self (c : Cache) (k : String) (v : CachedSearchResult) :
    cacheLookup (mapSet c k v) k = some v := by
  unfold mapSet cacheLookup
  split
  · next h => rw [find_map_update c k v h]; rfl
  · next h =>
    rw [Bool.not_eq_true] at h
    rw [find_append_self c k v h]
    rfl

theorem setCachedResults_lookup_self (cache : Cache) (q : String) (tab : SearchTab)
    (results : List SearchResult) (now : Nat) :
    cacheLookup (setCachedResults cache q tab results now) (cacheKey q tab)
      = some ⟨normalizeSearchQuery q, tab, results, now⟩ := by
  unfold setCachedResults
  exact mapSet_lookup_self _ _ _

theorem cacheLookup_filter_none (c : Cache) (k : String)
    (pred : String × CachedSearchResult → Bool)
    (h : cacheLookup c k = none) : cacheLookup (c.filter pred) k = none := by
  unfold cacheLookup at h ⊢
  simp only [Option.map_eq_none', List.find?_eq_none] at h ⊢
  intro x hx
  exact h x (List.mem_of_mem_filter hx)

theorem cacheLookup_drop_one_none (c : Cache) (k : String)
    (h : cacheLookup c k = none) : cacheLookup (c.drop 1) k = none := by
  unfold cacheLookup at h ⊢
  simp only [Option.map_eq_none', List.find?_eq_none] at h ⊢
  intro x hx
  exact h x (List.mem_of_mem_drop hx)

/-! ## Path characterizations of `performSearch` -/

theorem performSearch_fresh_eq (st : SearchState) (q : String) (now : Nat)
    (h1 : st.config.minSearchLength ≤ q.length)
    (h2 : cacheLookup st.searchCache (cacheKey q st.activeTab) = none) :
    performSearch st q now =
      (let stc : SearchState := { st with searchCache := clearExpiredCache st.searchCache now }
       let results := (computeResults stc q).take st.config.maxResults
       let st2 := renderResults
         { stc with
           searchCache := setCachedResults stc.searchCache q st.activeTab results now,
           filteredResults := results }
       let op := openDropdown st2
       (op.1, ⟨scannedRecordCount stc, true, false, true, false,
               op.2 ++ [Event.searchPerformed q results.length st.activeTab]⟩)) := by
  unfold performSearch performSearchAux
  rw [if_neg (by omega)]
  have hp : getCachedResults st.searchCache q st.activeTab now = (none, st.searchCache) := by
    unfold getCachedResults
    simp only [h2]
  simp only [hp]

theorem performSearch_hit_eq (st : SearchState) (q : String) (now : Nat)
    (e : CachedSearchResult)
    (h1 : st.config.minSearchLength ≤ q.length)
    (h2 : cacheLookup st.searchCache (cacheKey q st.activeTab) = some e)
    (h3 : ¬ CACHE_EXPIRY_MS < now - e.timestamp) :
    performSearch st q now =
      (let st1 := renderResults { st with filteredResults := e.results }
       let op := openDropdown st1
       (op.1, ⟨0, true, true, false, false,
               op.2 ++ [Event.searchPerformed q e.results.length st.activeTab]⟩)) := by
  unfold performSearch performSearchAux
  rw [if_neg (by omega)]
  have hp : getCachedResults st.searchCache q st.activeTab now = (some e.results, st.searchCache) := by
    unfold getCachedResults
    simp only [h2]
    rw [if_neg h3]
  simp only [hp]

/-- Short-query path characterization of `performSearch`. -/
theorem performSearch_short_eq (st : SearchState) (q : String) (now : Nat)
    (h : q.length < st.config.minSearchLength) :
    performSearch st q now =
      ((closeDropdown (renderResults { st with filteredResults := [] })).1,
       ⟨0, false, false, false, false,
        (closeDropdown (renderResults { st with filteredResults := [] })).2
          ++ [Event.searchPerformed q 0 st.activeTab]⟩) := by
  unfold performSearch performSearchAux
  rw [if_pos h]

/-- With a non-empty current result list, re-rendering resets the selection. -/
theorem renderResults_selectedIndex_of_nonempty (st : SearchState)
    (h : st.filteredResults ≠ []) : (renderResults st).selectedIndex = -1 := by
  unfold renderResults
  rw [if_neg (by simpa [List.isEmpty_iff] using h)]

/-! ## Claim theorems -/

/-- C10: calling `setTab` (which delegates to `setActiveTab`) with the tab
that is already active is a complete no-op — the state (including
`activeTab` and the cache) is unchanged, no search runs, and no event
(`tab-changed` included) is dispatched. -/
theorem C10_setTab_same_tab_noop (st : SearchState) (now : Nat) :
    setTab st st.activeTab now = (st, SearchMeta.empty) := by
  unfold setTab setActiveTab
  rw [if_pos rfl]

/-- C2 counterexample: with one result and `selectedIndex = 0`, a
`navigate(-1)` call moves `selectedIndex` back to `-1` — the claim states
navigation that would leave `[0, n-1]` is a no-op and that `-1` is not
reachable via `navigate`, but the guard in `navigateResults` only rejects
`newIndex < -1`. -/
theorem C2_counterexample_navigate_reaches_neg_one :
    openSelState.selectedIndex = 0 ∧ openSelState.filteredResults.length = 1 ∧
      (navigateResults openSelState (-1)).selectedIndex = -1 := by
  refine ⟨rfl, rfl, ?_⟩
  decide

/-- C2 amended: once navigation is possible (`selectedIndex ∈ [-1, n-1]`),
`navigateResults` keeps `selectedIndex` inside `[-1, n-1]` — not `[0, n-1]`:
`navigate(-1)` from index 0 deselects back to `-1` — and any call whose
target index falls below `-1` or at/after `n` is a no-op that leaves the
state unchanged (no wrap-around). -/
theorem C2_amended_navigation_clamped (st : SearchState) (d : Int)
    (h1 : -1 ≤ st.selectedIndex)
    (h2 : st.selectedIndex < (st.filteredResults.length : Int)) :
    (-1 ≤ (navigateResults st d).selectedIndex ∧
      (navigateResults st d).selectedIndex < (st.filteredResults.length : Int)) ∧
    ((st.selectedIndex + d < -1 ∨ (st.filteredResults.length : Int) ≤ st.selectedIndex + d) →
      navigateResults st d = st) := by
  unfold navigateResults
  by_cases hc : st.selectedIndex + d < -1 ∨
      (st.filteredResults.length : Int) ≤ st.selectedIndex + d
  · rw [if_pos hc]
    exact ⟨⟨h1, h2⟩, fun _ => rfl⟩
  · rw [if_neg hc]
    have hc2 := hc
    push_neg at hc2
    exact ⟨⟨hc2.1, hc2.2⟩, fun hcc => absurd hcc hc⟩

/-- Witness for the amended C2 at a concrete input: from index 0 over one
result, `navigate(+1)` stays inside `[-1, 0]` and an out-of-range move is a
no-op. -/
theorem C2_amended_navigation_clamped_witness :
    ((-1 ≤ (navigateResults openSelState 1).selectedIndex ∧
      (navigateResults openSelState 1).selectedIndex <
        (openSelState.filteredResults.length : Int)) ∧
    ((openSelState.selectedIndex + 1 < -1 ∨
        (openSelState.filteredResults.length : Int) ≤ openSelState.selectedIndex + 1) →
      navigateResults openSelState 1 = openSelState)) :=
  C2_amended_navigation_clamped openSelState 1 (by decide) (by decide)

/-- Auxiliary bound: a `Map.set` adds at most one entry. -/
theorem mapSet_length_le (c : Cache) (k : String) (v : CachedSearchResult) :
    (mapSet c k v).length ≤ c.length + 1 := by
  unfold mapSet
  split
  · simp
  · simp

/-- C6: the search cache never exceeds its fixed capacity
`SEARCH_CACHE_SIZE`, and an insertion into a cache at capacity with a fresh
key evicts exactly the oldest-inserted (head) entry — insertion-order FIFO:
the result is the old tail plus the new entry appended, every tail entry
stays retrievable, and the evicted head key (with pairwise-distinct keys)
is no longer retrievable. -/
theorem C6_cache_capacity_and_fifo (cache : Cache) (q : String) (tab : SearchTab)
    (results : List SearchResult) (now : Nat) :
    (cache.length ≤ SEARCH_CACHE_SIZE →
      (setCachedResults cache q tab results now).length ≤ SEARCH_CACHE_SIZE) ∧
    (cache.length = SEARCH_CACHE_SIZE →
      (∀ p ∈ cache, p.1 ≠ cacheKey q tab) →
      cache.Pairwise (fun a b => a.1 ≠ b.1) →
      (setCachedResults cache q tab results now
          = cache.drop 1 ++ [(cacheKey q tab, ⟨normalizeSearchQuery q, tab, results, now⟩)]) ∧
        (∀ p ∈ cache.drop 1,
          (cacheLookup (setCachedResults cache q tab results now) p.1).isSome = true) ∧
        ∀ p0 ∈ cache.take 1,
          cacheLookup (setCachedResults cache q tab results now) p0.1 = none) := by
  constructor
  · intro hle
    unfold setCachedResults
    dsimp only
    by_cases hge : SEARCH_CACHE_SIZE ≤ cache.length
    · rw [if_pos hge]
      refine le_trans (mapSet_length_le (cache.drop 1) _ _) ?_
      rw [List.length_drop]
      rw [Nat.sub_add_cancel (le_trans (by decide) hge)]
      exact hle
    · rw [if_neg hge]
      exact le_trans (mapSet_length_le cache _ _) (by omega)
  · intro hcap hfresh hpair
    obtain ⟨hd, tl, rfl⟩ : ∃ hd tl, cache = hd :: tl := by
      cases cache with
      | nil => simp [SEARCH_CACHE_SIZE] at hcap
      | cons hd tl => exact ⟨hd, tl, rfl⟩
    have hge : SEARCH_CACHE_SIZE ≤ (hd :: tl).length := le_of_eq hcap.symm
    have hany : tl.any (fun p => p.1 == cacheKey q tab) = false := by
      rw [List.any_eq_false]
      intro x hx
      have hne := hfresh x (List.mem_cons_of_mem hd hx)
      simp [hne]
    have heq : setCachedResults (hd :: tl) q tab results now
        = tl ++ [(cacheKey q tab, ⟨normalizeSearchQuery q, tab, results, now⟩)] := by
      unfold setCachedResults
      rw [if_pos hge]
      show mapSet tl _ _ = _
      unfold mapSet
      rw [if_neg (by simp [hany])]
    refine ⟨by simpa using heq, ?_, ?_⟩
    · intro p hp
      rw [show (hd :: tl).drop 1 = tl from rfl] at hp
      rw [heq]
      unfold cacheLookup
      rw [Option.isSome_map']
      exact List.find?_isSome.mpr ⟨p, List.mem_append_left _ hp, by simp⟩
    · intro p0 hp0
      rw [show (hd :: tl).take 1 = [hd] from rfl] at hp0
      have hp0e : p0 = hd := by simpa using hp0
      subst hp0e
      rw [heq]
      unfold cacheLookup
      rw [Option.map_eq_none', List.find?_eq_none]
      intro x hx
      rcases List.mem_append.mp hx with hxa | hxb
      · have := (List.pairwise_cons.mp hpair).1 x hxa
        simp [Ne.symm this]
      · have hx1 : x.1 = cacheKey q tab := by
          simp only [List.mem_singleton] at hxb
          rw [hxb]
        have := hfresh p0 (List.mem_cons_self p0 tl)
        simp [hx1, Ne.symm this]

/-- A cache filled to capacity with 50 distinct seed keys. -/
def bigCache : Cache :=
  (List.range SEARCH_CACHE_SIZE).map
    (fun i => (toString i ++ "_seed", ⟨toString i, SearchTab.all, [], 0⟩))

/-- Witness for C6 at a concrete input: inserting a 51st distinct key into
the full 50-entry cache keeps the size at 50 and evicts exactly the head
entry. -/
theorem C6_cache_capacity_and_fifo_witness :
    (setCachedResults bigCache "zz" SearchTab.all [] 7).length ≤ SEARCH_CACHE_SIZE ∧
      setCachedResults bigCache "zz" SearchTab.all [] 7
        = bigCache.drop 1
            ++ [(cacheKey "zz" SearchTab.all,
                 ⟨normalizeSearchQuery "zz", SearchTab.all, [], 7⟩)] := by
  have h := C6_cache_capacity_and_fifo bigCache "zz" SearchTab.all [] 7
  exact ⟨h.1 (by decide), (h.2 (by decide) (by decide) (by decide)).1⟩

/-- C3 counterexample: the short-circuit in `performSearch` tests the RAW
query length, not the normalized one.  For the raw query `" a  "` (length 4,
normalized `"a"` of length 1 < minimum 2), the engine consults the cache,
invokes the Matcher on the one record, writes the cache, and even returns a
non-empty result list — none of which the claim allows. -/
theorem C3_counterexample_normalized_short_not_bypassed :
    (normalizeSearchQuery " a  ").length < baseState.config.minSearchLength ∧
    (performSearch baseState " a  " 0).2.cacheChecked = true ∧
    (performSearch baseState " a  " 0).2.cacheWrote = true ∧
    (performSearch baseState " a  " 0).2.matcherCalls = 1 ∧
    (performSearch baseState " a  " 0).1.filteredResults ≠ [] := by
  decide

/-- C3 amended: for every raw query whose RAW length is below the configured
minimum, `performSearch` returns an empty result list, leaves the cache
untouched, performs no cache read or write, and never invokes the Matcher. -/
theorem C3_amended_short_raw_query_bypasses_cache (st : SearchState) (q : String)
    (now : Nat) (h : q.length < st.config.minSearchLength) :
    (performSearch st q now).1.filteredResults = [] ∧
    (performSearch st q now).1.searchCache = st.searchCache ∧
    (performSearch st q now).2.cacheChecked = false ∧
    (performSearch st q now).2.cacheWrote = false ∧
    (performSearch st q now).2.matcherCalls = 0 := by
  rw [performSearch_short_eq st q now h]
  refine ⟨?_, ?_, rfl, rfl, rfl⟩
  · simp
  · simp

/-- Witness for the amended C3 at a concrete input: the raw one-character
query `"a"` is short-circuited. -/
theorem C3_amended_short_raw_query_bypasses_cache_witness :
    "a".length < baseState.config.minSearchLength ∧
    (performSearch baseState "a" 0).1.filteredResults = [] ∧
    (performSearch baseState "a" 0).2.cacheChecked = false := by
  have h := C3_amended_short_raw_query_bypasses_cache baseState "a" 0 (by decide)
  exact ⟨by decide, h.1, h.2.2.1⟩

/-- C4 counterexample: when the new result list is EMPTY, `renderResults`
returns through its no-results branch without touching `selectedIndex`, and
`openDropdown` on an already-open dropdown leaves it as well — so after a
search with zero matches the stale `selectedIndex = 0` survives, where the
claim demands `-1`. -/
theorem C4_counterexample_empty_results_keep_selectedIndex :
    (performSearch openSelState "zz" 0).1.filteredResults = [] ∧
    (performSearch openSelState "zz" 0).1.selectedIndex = 0 := by
  decide

/-- C4 amended: `performSearch` resets `selectedIndex` to `-1` whenever the
NEW result list is non-empty (both the fresh-computation and the cache-hit
path); an empty new list does not by itself reset the selection. -/
theorem C4_amended_nonempty_results_reset_selectedIndex (st : SearchState)
    (q : String) (now : Nat)
    (h : (performSearch st q now).1.filteredResults ≠ []) :
    (performSearch st q now).1.selectedIndex = -1 := by
  unfold performSearch performSearchAux at h ⊢
  by_cases hshort : q.length < st.config.minSearchLength
  · rw [if_pos hshort] at h ⊢
    exact absurd (by simp) h
  · rw [if_neg hshort] at h ⊢
    rcases hgo : (getCachedResults st.searchCache q st.activeTab now).1 with _ | results
    · simp only [hgo] at h ⊢
      simp only [openDropdown_selectedIndex]
      refine renderResults_selectedIndex_of_nonempty _ ?_
      simpa using h
    · simp only [hgo] at h ⊢
      simp only [openDropdown_selectedIndex]
      refine renderResults_selectedIndex_of_nonempty _ ?_
      simpa using h

/-- Witness for the amended C4 at a concrete input: the query `"ap"` has one
match, and the selection is reset. -/
theorem C4_amended_nonempty_results_reset_selectedIndex_witness :
    (performSearch openSelState "ap" 0).1.filteredResults ≠ [] ∧
    (performSearch openSelState "ap" 0).1.selectedIndex = -1 :=
  ⟨by decide, C4_amended_nonempty_results_reset_selectedIndex openSelState "ap" 0 (by decide)⟩

/-- A search never changes the active tab. -/
theorem performSearch_activeTab (st : SearchState) (q : String) (now : Nat) :
    (performSearch st q now).1.activeTab = st.activeTab := by
  unfold performSearch performSearchAux
  split
  · simp
  · dsimp only
    split
    · simp
    · simp

/-- Over an initially empty cache, the only entry a search can leave behind
is the one it freshly computed for its own key at the call time. -/
theorem performSearch_cache_from_empty (st : SearchState) (q : String) (now : Nat)
    (hc : st.searchCache = []) :
    ∀ p ∈ (performSearch st q now).1.searchCache,
      p.1 = cacheKey q st.activeTab ∧ p.2.timestamp = now := by
  by_cases hshort : q.length < st.config.minSearchLength
  · rw [performSearch_short_eq st q now hshort]
    intro p hp
    simp only [closeDropdown_searchCache, renderResults_searchCache] at hp
    rw [hc] at hp
    cases hp
  · have h2 : cacheLookup st.searchCache (cacheKey q st.activeTab) = none := by
      rw [hc]; rfl
    rw [performSearch_fresh_eq st q now (Nat.le_of_not_lt hshort) h2]
    intro p hp
    simp only [openDropdown_searchCache, renderResults_searchCache] at hp
    rw [hc] at hp
    simp [setCachedResults, clearExpiredCache, mapSet, SEARCH_CACHE_SIZE] at hp
    rw [hp]
    exact ⟨rfl, rfl⟩

/-- C7: switching to a different tab clears the whole search cache before
anything else — afterwards the cache holds at most the entry the immediately
re-run search freshly computed for the NEW tab at the switch time, so every
entry cached before the switch is gone and must be recomputed. -/
theorem C7_switch_tab_clears_cache (st : SearchState) (tab : SearchTab) (now : Nat)
    (h : st.activeTab ≠ tab) :
    (setActiveTab st tab now).1.activeTab = tab ∧
    ∀ p ∈ (setActiveTab st tab now).1.searchCache,
      p.1 = cacheKey (normalizeSearchQuery st.inputValue) tab ∧ p.2.timestamp = now := by
  unfold setActiveTab
  rw [if_neg h]
  dsimp only
  by_cases hin : isNonEmptyString st.inputValue = true
  · rw [if_pos hin]
    exact ⟨performSearch_activeTab _ _ _, performSearch_cache_from_empty _ _ _ rfl⟩
  · rw [if_neg hin]
    exact ⟨rfl, by intro p hp; cases hp⟩

/-- Witness for C7 at a concrete input: switching from `all` to `account`
with input `"apple"` leaves only the freshly recomputed `account` entry. -/
theorem C7_switch_tab_clears_cache_witness :
    (setActiveTab { baseState with inputValue := "apple" } SearchTab.account 0).1.activeTab
        = SearchTab.account ∧
    ∀ p ∈ (setActiveTab { baseState with inputValue := "apple" }
        SearchTab.account 0).1.searchCache,
      p.1 = cacheKey (normalizeSearchQuery ({ baseState with inputValue := "apple" } :
          SearchState).inputValue) SearchTab.account ∧ p.2.timestamp = 0 :=
  C7_switch_tab_clears_cache { baseState with inputValue := "apple" }
    SearchTab.account 0 (by decide)

/-- C9: whatever stage of the `try` block of `performSearch` raises (during
matching/formatting, or after the cache write), the operation still returns
normally: the caller observes an empty result list and a closed dropdown —
no partially built result state — the failure is logged, and the
`search-performed` event reports zero results. -/
theorem C9_exception_degrades_to_empty (st : SearchState) (q : String) (now : Nat)
    (f : Fault)
    (h1 : st.config.minSearchLength ≤ q.length)
    (h2 : cacheLookup st.searchCache (cacheKey q st.activeTab) = none) :
    (performSearchAux st q now (some f)).1.filteredResults = [] ∧
    (performSearchAux st q now (some f)).1.isOpen = false ∧
    (performSearchAux st q now (some f)).2.errorLogged = true ∧
    Event.searchPerformed q 0 st.activeTab ∈ (performSearchAux st q now (some f)).2.events := by
  unfold performSearchAux
  rw [if_neg (by omega)]
  have hp : getCachedResults st.searchCache q st.activeTab now = (none, st.searchCache) := by
    unfold getCachedResults
    simp only [h2]
  simp only [hp]
  cases f with
  | duringCompute =>
    refine ⟨by simp, by simp, rfl, ?_⟩
    simp [List.mem_append]
  | afterCacheWrite =>
    refine ⟨by simp, by simp, rfl, ?_⟩
    simp [List.mem_append]

/-- Witness for C9 at a concrete input: an exception injected while matching
over `baseState` with query `"ap"` yields the empty, closed, logged outcome. -/
theorem C9_exception_degrades_to_empty_witness :
    baseState.config.minSearchLength ≤ "ap".length ∧
    (performSearchAux baseState "ap" 0 (some Fault.duringCompute)).1.filteredResults = [] ∧
    (performSearchAux baseState "ap" 0 (some Fault.duringCompute)).1.isOpen = false ∧
    (performSearchAux baseState "ap" 0 (some Fault.duringCompute)).2.errorLogged = true := by
  have h := C9_exception_degrades_to_empty baseState "ap" 0 Fault.duringCompute
    (by decide) rfl
  exact ⟨by decide, h.1, h.2.1, h.2.2.1⟩

/-- C1 counterexample: the claim asserts `matchesSearch` reports the
all-digits query `"123"` as NOT matching the id-field value `"4567123"`,
but the numeric-identifier rule accepts any value that ENDS with the query
(`normalizedValue.endsWith(normalizedQuery)`), and `"4567123"` ends with
`"123"` — so the code matches. -/
theorem C1_counterexample_digits_at_end_match :
    matchesSearch (mkItem "customerId" "4567123") "123" ["customerId"] = true := by
  decide

/-- C1 amended: for an all-digits query against an id/number-named field,
`matchesSearch` matches exactly when one of the general tiers (exact,
prefix, word-boundary prefix) fires or the numeric rule fires: the query
occurs at the END of the value — which includes pure-digit values such as
`"4567123"` for query `"123"` — or flanked by a non-digit on the left and a
non-digit/end on the right; digits strictly inside a longer number do not
match. -/
theorem C1_amended_numeric_id_rule (f v q : String)
    (h1 : isAllDigits (strChars (normalizeSearchQuery q)) = true)
    (h2 : hasIdLikeName f = true) :
    matchesSearch (mkItem f v) q [f] =
      (lowerL (strChars v) == strChars (normalizeSearchQuery q)
        || isPrefixL (strChars (normalizeSearchQuery q)) (lowerL (strChars v))
        || (splitWsL (lowerL (strChars v))).any
            (fun w => isPrefixL (strChars (normalizeSearchQuery q)) w)
        || isSuffixL (strChars (normalizeSearchQuery q)) (lowerL (strChars v))
        || boundaryTest (strChars (normalizeSearchQuery q)) (lowerL (strChars v))) := by
  have hne : ¬((strChars (normalizeSearchQuery q)).isEmpty = true) := by
    intro hcon
    unfold isAllDigits at h1
    rw [hcon] at h1
    simp at h1
  unfold matchesSearch
  rw [if_neg hne]
  rw [List.any_cons, List.any_nil, Bool.or_false]
  rw [show mkItem f v f = some v from by unfold mkItem; rw [if_pos rfl]]
  show fieldMatches f v (normalizeSearchQuery q) = _
  unfold fieldMatches
  cases e1 : lowerL (strChars v) == strChars (normalizeSearchQuery q) with
  | true =>
    rw [if_pos rfl]
    simp only [Bool.true_or]
  | false =>
    rw [if_neg (by simp)]
    cases e2 : isPrefixL (strChars (normalizeSearchQuery q)) (lowerL (strChars v)) with
    | true =>
      rw [if_pos rfl]
      simp only [Bool.false_or, Bool.true_or]
    | false =>
      rw [if_neg (by simp)]
      cases e3 : (splitWsL (lowerL (strChars v))).any
          (fun w => isPrefixL (strChars (normalizeSearchQuery q)) w) with
      | true =>
        rw [if_pos rfl]
        simp only [Bool.false_or, Bool.true_or]
      | false =>
        rw [if_neg (by simp)]
        rw [h1, h2, if_pos (show (true && true) = true from rfl)]
        simp only [Bool.false_or]

/-- Witness for the amended C1 at a concrete input: `"CUST-123"` against the
all-digits query `"123"` on the id-named field. -/
theorem C1_amended_numeric_id_rule_witness :
    matchesSearch (mkItem "customerId" "CUST-123") "123" ["customerId"]
      = (lowerL (strChars "CUST-123") == strChars (normalizeSearchQuery "123")
        || isPrefixL (strChars (normalizeSearchQuery "123")) (lowerL (strChars "CUST-123"))
        || (splitWsL (lowerL (strChars "CUST-123"))).any
            (fun w => isPrefixL (strChars (normalizeSearchQuery "123")) w)
        || isSuffixL (strChars (normalizeSearchQuery "123")) (lowerL (strChars "CUST-123"))
        || boundaryTest (strChars (normalizeSearchQuery "123")) (lowerL (strChars "CUST-123"))) :=
  C1_amended_numeric_id_rule "customerId" "CUST-123" "123" (by decide) (by decide)

/-- Congruence for `List.any` over pointwise-equal predicates. -/
theorem list_any_congr {α : Type} (l : List α) (f g : α → Bool)
    (h : ∀ a ∈ l, f a = g a) : l.any f = l.any g := by
  induction l with
  | nil => rfl
  | cons hd tl ih =>
    simp only [List.any_cons]
    rw [h hd (List.mem_cons_self hd tl), ih (fun a ha => h a (List.mem_cons_of_mem hd ha))]

/-- For a normalized query of length at most 2 that is not an all-digits
query aimed at an id/number field, one field of `matchesSearch` reduces to
the first three tiers only. -/
theorem fieldMatches_short_non_id (f v : String) (nq : String)
    (hhi : (strChars nq).length ≤ 2)
    (hx : ¬(isAllDigits (strChars nq) = true ∧ hasIdLikeName f = true)) :
    fieldMatches f v nq =
      (lowerL (strChars v) == strChars nq
        || isPrefixL (strChars nq) (lowerL (strChars v))
        || (splitWsL (lowerL (strChars v))).any (fun w => isPrefixL (strChars nq) w)) := by
  unfold fieldMatches
  have h4 : (isAllDigits (strChars nq) && hasIdLikeName f) = false := by
    cases hd : isAllDigits (strChars nq)
    · rfl
    · cases hi : hasIdLikeName f
      · rfl
      · exact absurd ⟨hd, hi⟩ hx
  have h5 : (decide (3 ≤ (strChars nq).length)) = false := by
    simp
    omega
  cases e1 : lowerL (strChars v) == strChars nq with
  | true =>
    rw [if_pos rfl]
    simp only [Bool.true_or]
  | false =>
    rw [if_neg (by simp)]
    cases e2 : isPrefixL (strChars nq) (lowerL (strChars v)) with
    | true =>
      rw [if_pos rfl]
      simp only [Bool.false_or, Bool.true_or]
    | false =>
      rw [if_neg (by simp)]
      cases e3 : (splitWsL (lowerL (strChars v))).any
          (fun w => isPrefixL (strChars nq) w) with
      | true =>
        rw [if_pos rfl]
        simp only [Bool.false_or, Bool.true_or]
      | false =>
        rw [if_neg (by simp)]
        rw [h4, if_neg (by simp), h5, if_neg (by simp)]
        simp only [Bool.false_or]

/-- C8: for a normalized query of length 1 or 2 that is not an all-digits
query aimed at an id/number-named field, `matchesSearch` holds exactly when
some field value matches by exact equality, prefix, or word-boundary prefix
— the substring-containment fallback (which requires length at least 3)
cannot fire. -/
theorem C8_short_query_no_substring_fallback (item : String → Option String)
    (q : String) (fields : List String)
    (hlo : 1 ≤ (strChars (normalizeSearchQuery q)).length)
    (hhi : (strChars (normalizeSearchQuery q)).length ≤ 2)
    (hx : ∀ f ∈ fields,
      ¬(isAllDigits (strChars (normalizeSearchQuery q)) = true ∧ hasIdLikeName f = true)) :
    matchesSearch item q fields =
      fields.any (fun f =>
        match item f with
        | none => false
        | some v =>
          lowerL (strChars v) == strChars (normalizeSearchQuery q)
            || isPrefixL (strChars (normalizeSearchQuery q)) (lowerL (strChars v))
            || (splitWsL (lowerL (strChars v))).any
                (fun w => isPrefixL (strChars (normalizeSearchQuery q)) w)) := by
  have hne : ¬((strChars (normalizeSearchQuery q)).isEmpty = true) := by
    intro hcon
    rw [List.isEmpty_iff] at hcon
    rw [hcon] at hlo
    simp at hlo
  unfold matchesSearch
  rw [if_neg hne]
  refine list_any_congr fields _ _ ?_
  intro f hf
  cases hv : item f
  · simp only [hv]
  · simp only [hv]
    exact fieldMatches_short_non_id f _ _ hhi (hx f hf)

/-- Witness for C8 at a concrete input: the two-character query `"ap"` over
the non-id field `title`. -/
theorem C8_short_query_no_substring_fallback_witness :
    matchesSearch (mkItem "title" "apple savings") "ap" ["title"]
      = (["title"].any (fun f =>
          match mkItem "title" "apple savings" f with
          | none => false
          | some v =>
            lowerL (strChars v) == strChars (normalizeSearchQuery "ap")
              || isPrefixL (strChars (normalizeSearchQuery "ap")) (lowerL (strChars v))
              || (splitWsL (lowerL (strChars v))).any
                  (fun w => isPrefixL (strChars (normalizeSearchQuery "ap")) w))) :=
  C8_short_query_no_substring_fallback (mkItem "title" "apple savings") "ap" ["title"]
    (by decide) (by decide) (by decide)

/-- C5: over a fixed data snapshot, with a valid-length query not yet cached,
two consecutive identical `performSearch` calls (the second within the cache
TTL) return the same result list, and the second call is served from the
cache: it never invokes the Matcher. -/
theorem C5_repeat_query_served_from_cache (st : SearchState) (q : String)
    (t1 t2 : Nat)
    (h1 : st.config.minSearchLength ≤ q.length)
    (h2 : cacheLookup st.searchCache (cacheKey q st.activeTab) = none)
    (h3 : t2 - t1 ≤ CACHE_EXPIRY_MS) :
    (performSearch (performSearch st q t1).1 q t2).1.filteredResults
        = (performSearch st q t1).1.filteredResults ∧
    (performSearch (performSearch st q t1).1 q t2).2.matcherCalls = 0 ∧
    (performSearch (performSearch st q t1).1 q t2).2.cacheHit = true := by
  have e1 := performSearch_fresh_eq st q t1 h1 h2
  have hcfg : (performSearch st q t1).1.config = st.config := by
    rw [e1]
    simp
  have htab : (performSearch st q t1).1.activeTab = st.activeTab :=
    performSearch_activeTab st q t1
  have hres : (performSearch st q t1).1.filteredResults
      = (computeResults { st with searchCache := clearExpiredCache st.searchCache t1 } q).take
          st.config.maxResults := by
    rw [e1]
    simp
  have hcache : (performSearch st q t1).1.searchCache
      = setCachedResults (clearExpiredCache st.searchCache t1) q st.activeTab
          ((computeResults { st with searchCache := clearExpiredCache st.searchCache t1 } q).take
            st.config.maxResults) t1 := by
    rw [e1]
    simp
  have hlook : cacheLookup (performSearch st q t1).1.searchCache
      (cacheKey q (performSearch st q t1).1.activeTab)
      = some ⟨normalizeSearchQuery q, st.activeTab,
          (computeResults { st with searchCache := clearExpiredCache st.searchCache t1 } q).take
            st.config.maxResults, t1⟩ := by
    rw [hcache, htab]
    exact setCachedResults_lookup_self _ _ _ _ _
  have h1b : (performSearch st q t1).1.config.minSearchLength ≤ q.length := by
    rw [hcfg]
    exact h1
  have hhit := performSearch_hit_eq (performSearch st q t1).1 q t2
    ⟨normalizeSearchQuery q, st.activeTab,
      (computeResults { st with searchCache := clearExpiredCache st.searchCache t1 } q).take
        st.config.maxResults, t1⟩
    h1b hlook (Nat.not_lt.mpr h3)
  refine ⟨?_, ?_, ?_⟩
  · rw [hhit, hres]
    simp
  · rw [hhit]
  · rw [hhit]

/-- Witness for C5 at a concrete input: searching `"ap"` twice over the
one-account data set; the repeat at time 1000 is a cache hit with no
Matcher call and the same result list. -/
theorem C5_repeat_query_served_from_cache_witness :
    (performSearch (performSearch baseState "ap" 0).1 "ap" 1000).1.filteredResults
        = (performSearch baseState "ap" 0).1.filteredResults ∧
    (performSearch (performSearch baseState "ap" 0).1 "ap" 1000).2.matcherCalls = 0 ∧
    (performSearch (performSearch baseState "ap" 0).1 "ap" 1000).2.cacheHit = true :=
  C5_repeat_query_served_from_cache baseState "ap" 0 1000 (by decide) rfl (by decide)

end SmartSearch
